import Mathlib

/-!
Shallow embedding of the hair-salon backend (Express + Mongoose) relevant to
the payment routes (index.js) and the analytics routes (routes/analytics.js).

Conventions of the embedding:
* JS numbers are modelled as rationals (ℚ); NaN is modelled by `Option ℚ`
  where the code can observe it.
* Instants (JS Date values / Mongo dates) are modelled as integers
  (milliseconds on the local-time axis); the `new Date(y, m-1, d, hh, mm,
  ss, ms)` constructor is modelled by a proleptic-Gregorian conversion.
* Mongo `find` with a `{date: {$gte, $lte}}` filter is a list filter;
  documents are a list in insertion order.
* JS object-keyed maps preserve first-insertion key order; they are
  modelled by the list of keys in first-appearance order plus per-key
  aggregation over the (order preserving) filtered sub-list.
* `Array.prototype.sort` with a numeric comparator is a stable sort; it is
  modelled by a stable insertion sort `stableSortDesc`.
* The node `crypto` HMAC-SHA256 keyed by the environment secret is external
  to the repository; it is abstracted as a function parameter
  `hmac : String → String` standing for the helper `hmacSha256`.
-/

namespace HairSalon

/-- JS `Math.round`: round half toward positive infinity. -/
def jsRound (q : ℚ) : ℤ := ⌊q + 1 / 2⌋

/-- MongoDB `$round` tie behaviour: round half to even. -/
def rne (q : ℚ) : ℤ :=
  if q - ⌊q⌋ < 1 / 2 then ⌊q⌋
  else if q - ⌊q⌋ > 1 / 2 then ⌊q⌋ + 1
  else if ⌊q⌋ % 2 = 0 then ⌊q⌋ else ⌊q⌋ + 1

/-- MongoDB `$round [x, 1]`: one decimal place, ties to even. -/
def mongoRound1 (q : ℚ) : ℚ := (rne (q * 10) : ℚ) / 10

/-- JS `Math.round(x * 10) / 10` as used for `hoursWorked`. -/
def jsRound1 (q : ℚ) : ℚ := (jsRound (q * 10) : ℚ) / 10

/-- Days since 1970-01-01 of the civil date y-m-d (month 1..12), by the
standard proleptic-Gregorian conversion; models the day arithmetic of the
JS `Date` local constructor for in-range months. -/
def daysFromCivil (y m d : ℤ) : ℤ :=
  let y2 := y - (if m ≤ 2 then 1 else 0)
  let era := y2 / 400
  let yoe := y2 - era * 400
  let mp := (m + 9) % 12
  let doy := (153 * mp + 2) / 5 + d - 1
  let doe := yoe * 365 + yoe / 4 - yoe / 100 + doy
  era * 146097 + doe - 719468

/-- Model of JS `new Date(y, m - 1, d, hh, mm, ss, ms)` (local time), as
milliseconds on the local-time axis; `m` is the 1-based month. -/
def mkLocalMs (y m d hh mm ss ms : ℤ) : ℤ :=
  daysFromCivil y m d * 86400000 + hh * 3600000 + mm * 60000 + ss * 1000 + ms

/-- One `{name, price}` entry of a visit's `services` array (Visit.js). -/
structure Service where
  name : String
  price : ℚ
deriving DecidableEq, Repr

/-- A Visit document (models/Visit.js).  `startTime`/`endTime` are `"HH:mm"`
strings in the schema; they are embedded already split into the hour and
minute numbers that `calcHours` extracts from them. -/
structure Visit where
  name : String
  contact : String
  age : ℕ
  gender : String
  date : ℤ
  startH : ℤ
  startM : ℤ
  endH : ℤ
  endM : ℤ
  artist : String
  serviceType : String
  services : List Service
  filledBy : String
  subtotal : ℚ
  discountPercent : ℚ
  discountAmount : ℚ
  finalTotal : ℚ
  paymentStatus : String
  razorpayPaymentId : Option String
deriving DecidableEq, Repr

/-- `calcHours` of analytics.js: minute difference end minus start, divided
by 60, floored at zero via `Math.max(diff / 60, 0)`. -/
def calcHours (v : Visit) : ℚ :=
  max ((((v.endH * 60 + v.endM) - (v.startH * 60 + v.startM) : ℤ) : ℚ) / 60) 0

/-- The optional `from`/`to` query parameters, already split by `"-"` into
the `[y, m, d]` number triples the code produces. -/
structure DateQuery where
  fromQ : Option (ℤ × ℤ × ℤ)
  toQ : Option (ℤ × ℤ × ℤ)

/-- The `new Date()` value read by `dateFilter` for its defaults: current
local year, 1-based month, and day of month. -/
structure Clock where
  year : ℤ
  month : ℤ
  day : ℤ

/-- `dateFilter` of analytics.js: the `$gte` and `$lte` bounds.  With `from`
present the lower bound is local midnight of that date; with `to` present
the upper bound is local 23:59:59.999 of that date; defaults are the first
of the current month and the current day's end. -/
def dateFilter (now : Clock) (q : DateQuery) : ℤ × ℤ :=
  let fromMs := match q.fromQ with
    | some (y, m, d) => mkLocalMs y m d 0 0 0 0
    | none => mkLocalMs now.year now.month 1 0 0 0 0
  let toMs := match q.toQ with
    | some (y, m, d) => mkLocalMs y m d 23 59 59 999
    | none => mkLocalMs now.year now.month now.day 23 59 59 999
  (fromMs, toMs)

/-- `Visit.find({date: {$gte: lo, $lte: hi}})`: the visits whose date lies
in the closed interval. -/
def findVisits (vs : List Visit) (f : ℤ × ℤ) : List Visit :=
  vs.filter (fun v => decide (f.1 ≤ v.date ∧ v.date ≤ f.2))

/-- Response body of GET /api/analytics/summary (without the echoed
from/to fields). -/
structure SummaryResp where
  totalRevenue : ℚ
  totalVisits : ℕ
  uniqueCustomers : ℕ
  avgTicket : ℤ
deriving DecidableEq, Repr

/-- Handler of GET /api/analytics/summary: sum of `finalTotal` over the
matching visits, visit count, distinct-contact count (`new Set(...).size`),
and `Math.round(totalRevenue / totalVisits)` (0 when no visits). -/
def summaryHandler (now : Clock) (q : DateQuery) (vs : List Visit) : SummaryResp :=
  let visits := findVisits vs (dateFilter now q)
  let totalRevenue := visits.foldl (fun s v => s + v.finalTotal) 0
  let totalVisits := visits.length
  let uniqueCustomers := (visits.map Visit.contact).dedup.length
  { totalRevenue := totalRevenue
    totalVisits := totalVisits
    uniqueCustomers := uniqueCustomers
    avgTicket := if totalVisits > 0 then jsRound (totalRevenue / totalVisits) else 0 }

/-- First-appearance order of the distinct keys `f v` over a list, as a JS
object built by an insertion loop enumerates its string keys. -/
def keyOrder (f : α → String) (l : List α) : List String :=
  l.foldl (fun acc v => if f v ∈ acc then acc else acc ++ [f v]) []

/-- Stable insert for a descending sort: `x` goes after every element whose
key is greater than or equal to its own. -/
def insDesc (key : α → ℚ) (x : α) : List α → List α
  | [] => [x]
  | y :: ys => if key x ≤ key y then y :: insDesc key x ys else x :: y :: ys

/-- Stable descending sort by a numeric key; models `Array.prototype.sort`
with the comparator `(a, b) => key b - key a` (stable in JS). -/
def stableSortDesc (key : α → ℚ) (l : List α) : List α :=
  l.foldl (fun acc x => insDesc key x acc) []

/-- One pre-rank row of the /employees leaderboard. -/
structure EmpStats where
  name : String
  customersServed : ℕ
  uniqueCustomers : ℕ
  revenue : ℤ
  hoursWorked : ℚ
deriving DecidableEq, Repr

/-- A leaderboard row after the final `map` attaches `rank: i + 1`. -/
structure RankedEmp where
  rank : ℕ
  name : String
  customersServed : ℕ
  uniqueCustomers : ℕ
  revenue : ℤ
  hoursWorked : ℚ
deriving DecidableEq, Repr

/-- The per-artist aggregation of GET /api/analytics/employees: one record
per distinct artist in first-appearance order; `customers` counts visits,
`revenue` is `Math.round` of the `finalTotal` sum, `hoursWorked` is the
`calcHours` sum rounded to one decimal, `uniqueCustomers` the distinct
contact count. -/
def empEntries (visits : List Visit) : List EmpStats :=
  (keyOrder Visit.artist visits).map (fun a =>
    let g := visits.filter (fun v => decide (v.artist = a))
    { name := a
      customersServed := g.length
      uniqueCustomers := (g.map Visit.contact).dedup.length
      revenue := jsRound (g.foldl (fun s v => s + v.finalTotal) 0)
      hoursWorked := jsRound1 (g.foldl (fun s v => s + calcHours v) 0) })

/-- The final step of the leaderboard pipeline:
`.map((e, i) => ({rank: i + 1, ...e}))`. -/
def attachRanks (l : List EmpStats) : List RankedEmp :=
  l.enum.map (fun p =>
    { rank := p.1 + 1
      name := p.2.name
      customersServed := p.2.customersServed
      uniqueCustomers := p.2.uniqueCustomers
      revenue := p.2.revenue
      hoursWorked := p.2.hoursWorked })

/-- Handler of GET /api/analytics/employees: aggregate per artist, sort
descending by (rounded) revenue with the stable array sort, then attach
`rank := index + 1`. -/
def employeesHandler (now : Clock) (q : DateQuery) (vs : List Visit) : List RankedEmp :=
  let visits := findVisits vs (dateFilter now q)
  attachRanks (stableSortDesc (fun e => (e.revenue : ℚ)) (empEntries visits))

/-- One `{service, count, revenue}` row of the per-artist top-services
list in the /employee/:name response. -/
structure SvcStat where
  service : String
  count : ℕ
  revenue : ℚ
deriving DecidableEq, Repr

/-- Response body of GET /api/analytics/employee/:name. -/
structure EmpDetail where
  name : String
  customersServed : ℕ
  uniqueCustomers : ℕ
  revenue : ℤ
  hoursWorked : ℚ
  avgRevenuePerVisit : ℤ
  topServices : List SvcStat
  rank : ℕ
  totalArtists : ℕ
deriving DecidableEq, Repr

/-- The `(name, revenue)` pairs of `Object.entries(peerMap)` in the
/employee/:name handler: artists in first-appearance order with their raw
(unrounded) `finalTotal` sums. -/
def peerRevs (visits : List Visit) : List (String × ℚ) :=
  (keyOrder Visit.artist visits).map (fun a =>
    (a, (visits.filter (fun v => decide (v.artist = a))).foldl (fun s v => s + v.finalTotal) 0))

/-- The flattened per-service aggregation of an artist's visits: one
`{service, count, revenue}` per distinct service name in first-appearance
order over the concatenated service lists. -/
def svcEntries (avs : List Visit) : List SvcStat :=
  let allSvcs := avs.flatMap Visit.services
  (keyOrder Service.name allSvcs).map (fun n =>
    let g := allSvcs.filter (fun s => decide (s.name = n))
    { service := n
      count := g.length
      revenue := g.foldl (fun s x => s + x.price) 0 })

/-- Handler of GET /api/analytics/employee/:name.  With no matching visits
for the artist it returns the literal all-zero record; otherwise it
aggregates the artist's visits, takes the five most-booked services, and
computes the artist's rank by sorting the raw per-artist revenue sums of
all matching visits descending and locating the name (`findIndex + 1`,
0 when absent). -/
def employeeDetailHandler (now : Clock) (q : DateQuery) (artistName : String)
    (vs : List Visit) : EmpDetail :=
  let allVisits := findVisits vs (dateFilter now q)
  let artistVisits := allVisits.filter (fun v => decide (v.artist = artistName))
  if artistVisits.length = 0 then
    { name := artistName
      customersServed := 0
      uniqueCustomers := 0
      revenue := 0
      hoursWorked := 0
      avgRevenuePerVisit := 0
      topServices := []
      rank := 0
      totalArtists := 0 }
  else
    let revenue := artistVisits.foldl (fun s v => s + v.finalTotal) 0
    let totalHours := artistVisits.foldl (fun s v => s + calcHours v) 0
    let sorted := stableSortDesc Prod.snd (peerRevs allVisits)
    { name := artistName
      customersServed := artistVisits.length
      uniqueCustomers := (artistVisits.map Visit.contact).dedup.length
      revenue := jsRound revenue
      hoursWorked := jsRound1 totalHours
      avgRevenuePerVisit := jsRound (revenue / artistVisits.length)
      topServices := (stableSortDesc (fun s => (s.count : ℚ)) (svcEntries artistVisits)).take 5
      rank := match sorted.findIdx? (fun p => p.1 = artistName) with
        | some i => i + 1
        | none => 0
      totalArtists := sorted.length }

/-- Response body of GET /api/analytics/repeat-customers. -/
structure RepeatResp where
  totalCustomers : ℕ
  repeatCustomers : ℕ
  newCustomers : ℕ
  repeatRate : ℚ
deriving DecidableEq, Repr

/-- Handler of GET /api/analytics/repeat-customers: the aggregation
pipeline groups matching visits by contact, counts distinct contacts and
how many have more than one / exactly one visit, and projects
`$round [(repeat / total) * 100, 1]` guarded by `total > 0`; an empty
pipeline result falls back to the all-zero default object. -/
def repeatCustomersHandler (now : Clock) (q : DateQuery) (vs : List Visit) : RepeatResp :=
  let visits := findVisits vs (dateFilter now q)
  let groups := (keyOrder Visit.contact visits).map
    (fun c => (visits.filter (fun v => decide (v.contact = c))).length)
  if groups.isEmpty then
    { totalCustomers := 0, repeatCustomers := 0, newCustomers := 0, repeatRate := 0 }
  else
    let totalCustomers := groups.length
    let repeatCustomers := (groups.filter (fun n => decide (1 < n))).length
    let newCustomers := (groups.filter (fun n => decide (n = 1))).length
    { totalCustomers := totalCustomers
      repeatCustomers := repeatCustomers
      newCustomers := newCustomers
      repeatRate :=
        if 0 < totalCustomers then
          mongoRound1 (((repeatCustomers : ℚ) / (totalCustomers : ℚ)) * 100)
        else 0 }

/-- The HTTP response of GET /api/analytics/employee/:name on the success
path: `res.json` replies with status 200 and the record. -/
def employeeDetailResponse (now : Clock) (q : DateQuery) (artistName : String)
    (vs : List Visit) : ℕ × EmpDetail :=
  (200, employeeDetailHandler now q artistName vs)

/-- A spreadsheet cell: either a string or a numeric value. -/
inductive Cell where
  | s (v : String)
  | q (v : ℚ)
deriving DecidableEq, Repr

/-- The flattened export row for one visit, as the ordered key/value pairs
of the object literal in the /export handler.  `fmt` stands for the
external `toLocaleDateString("en-IN")` date formatting; the start and end
time cells carry the stored `"HH:mm"` strings, reconstructed from the
embedded hour/minute numbers. -/
def exportRow (fmt : ℤ → String) (v : Visit) : List (String × Cell) :=
  [("Date", .s (fmt v.date)),
   ("Name", .s v.name),
   ("Contact", .s v.contact),
   ("Age", .q v.age),
   ("Gender", .s v.gender),
   ("Start Time", .s (toString v.startH ++ ":" ++ toString v.startM)),
   ("End Time", .s (toString v.endH ++ ":" ++ toString v.endM)),
   ("Artist", .s v.artist),
   ("Service Type", .s v.serviceType),
   ("Services", .s (String.intercalate ", " (v.services.map Service.name))),
   ("Filled By", .s v.filledBy),
   ("Subtotal", .q v.subtotal),
   ("Discount (%)", .q v.discountPercent),
   ("Discount (₹)", .q v.discountAmount),
   ("Final Total", .q v.finalTotal),
   ("Payment Status", .s v.paymentStatus),
   ("Payment ID", .s (v.razorpayPaymentId.getD ""))]

/-- `XLSX.utils.json_to_sheet`: the header row holds the union of the row
objects' keys in first-appearance order, followed by one data row per
record; with no records nothing at all is written to the sheet (the header
row is derived from the records, so it is absent too). -/
def jsonToSheet (rows : List (List (String × Cell))) : List (List Cell) :=
  let headers : List String := rows.foldl
    (fun acc r => r.foldl (fun acc2 kv => if kv.1 ∈ acc2 then acc2 else acc2 ++ [kv.1]) acc) []
  if rows.isEmpty then []
  else (headers.map Cell.s) ::
    rows.map (fun r => headers.map (fun k => (r.lookup k).getD (Cell.s "")))

/-- Handler of GET /api/analytics/export: matching visits sorted by date
descending, flattened to rows, converted to a sheet. -/
def exportHandler (fmt : ℤ → String) (now : Clock) (q : DateQuery)
    (vs : List Visit) : List (List Cell) :=
  let visits := stableSortDesc (fun v => (v.date : ℚ)) (findVisits vs (dateFilter now q))
  jsonToSheet (visits.map (exportRow fmt))

/-- The `amount` field of a create-order / create-payment-link body, seen
through the two observations the code makes of it: JS truthiness, and the
result of `Number(amount)` (`none` models NaN). -/
structure AmountField where
  truthy : Bool
  numval : Option ℚ
deriving DecidableEq, Repr

/-- Outcome of `validatePaymentInput`: either a 400 message (response
already sent) or the trimmed name/phone and the paise amount
`Math.round(Number(amount) * 100)`. -/
inductive Validated where
  | invalid (msg : String)
  | ok (name phone : String) (amountInPaise : ℤ)
deriving DecidableEq, Repr

/-- `validatePaymentInput` of index.js: missing/falsy fields give a 400;
`Math.round(Number(amount) * 100)` being NaN or below 100 gives a 400;
otherwise the trimmed fields and the paise amount are returned. -/
def validatePaymentInput (name phone : String) (amount : AmountField) : Validated :=
  if name = "" ∨ phone = "" ∨ amount.truthy = false then
    .invalid "name, phone and amount are required"
  else
    match amount.numval with
    | none => .invalid "Amount must be at least ₹1"
    | some a =>
      if jsRound (a * 100) < 100 then .invalid "Amount must be at least ₹1"
      else .ok name.trim phone.trim (jsRound (a * 100))

/-- A Razorpay order as echoed by `razorpay.orders.create`. -/
structure RzpOrder where
  id : String
  amount : ℤ
  currency : String
deriving DecidableEq, Repr

/-- Response of POST /api/create-order. -/
inductive CreateOrderResp where
  | err (status : ℕ) (msg : String)
  | ok (order_id : String) (amount : ℤ) (currency : String) (name phone : String)
deriving DecidableEq, Repr

/-- Handler of POST /api/create-order.  `configured` models the presence of
the Razorpay credentials; `prov` models `razorpay.orders.create` applied to
the paise amount (`none` models a provider throw, surfaced as a 500). -/
def createOrderHandler (configured : Bool) (prov : ℤ → Option RzpOrder)
    (name phone : String) (amount : AmountField) : CreateOrderResp :=
  if configured = false then .err 503 "Payment service not configured"
  else
    match validatePaymentInput name phone amount with
    | .invalid m => .err 400 m
    | .ok n p paise =>
      match prov paise with
      | none => .err 500 "Failed to create order"
      | some o => .ok o.id o.amount o.currency n p

/-- A Razorpay payment link as echoed by `razorpay.paymentLink.create`;
only the fields the handler reads back are modelled. -/
structure RzpPaymentLink where
  short_url : String
  amount : ℤ
deriving DecidableEq, Repr

/-- Response of POST /api/create-payment-link. -/
inductive CreateLinkResp where
  | err (status : ℕ) (msg : String)
  | ok (payment_link_url : String)
deriving DecidableEq, Repr

/-- Handler of POST /api/create-payment-link: same configuration check and
`validatePaymentInput` as create-order; `prov` models
`razorpay.paymentLink.create` applied to the paise amount (`none` models a
provider throw, surfaced as a 500); on success the handler returns the
link's short_url. -/
def createPaymentLinkHandler (configured : Bool) (prov : ℤ → Option RzpPaymentLink)
    (name phone : String) (amount : AmountField) : CreateLinkResp :=
  if configured = false then .err 503 "Payment service not configured"
  else
    match validatePaymentInput name phone amount with
    | .invalid m => .err 400 m
    | .ok _ _ paise =>
      match prov paise with
      | none => .err 500 "Failed to create payment link"
      | some pl => .ok pl.short_url

/-- Body of POST /api/verify-order-payment: the three Razorpay identifiers
plus the client-echoed name/phone/amount; `amount` is `none` when
`Number(amount)` is NaN. -/
structure OrderVerifyReq where
  razorpay_order_id : String
  razorpay_payment_id : String
  razorpay_signature : String
  name : String
  phone : String
  amount : Option ℚ
deriving DecidableEq, Repr

/-- Response of POST /api/verify-order-payment. -/
inductive OrderVerifyResp where
  | err (status : ℕ) (msg : String)
  | ok (payment_id order_id : String) (amount : Option ℚ) (name phone : String)
deriving DecidableEq, Repr

/-- Handler of POST /api/verify-order-payment: reject missing identifiers
with a 400, reject a signature that differs from the HMAC of
`order_id + "|" + payment_id` with a 400, and otherwise answer success
with the client-supplied amount divided by 100. -/
def verifyOrderPayment (hmac : String → String) (r : OrderVerifyReq) : OrderVerifyResp :=
  if r.razorpay_order_id = "" ∨ r.razorpay_payment_id = "" ∨ r.razorpay_signature = "" then
    .err 400 "Missing payment parameters"
  else if hmac (r.razorpay_order_id ++ "|" ++ r.razorpay_payment_id) ≠ r.razorpay_signature then
    .err 400 "Invalid payment signature"
  else
    .ok r.razorpay_payment_id r.razorpay_order_id (r.amount.map (fun a => a / 100))
      r.name r.phone

/-- Query of GET /api/verify-payment (the payment-link callback). -/
structure LinkVerifyReq where
  razorpay_payment_id : String
  razorpay_payment_link_id : String
  razorpay_payment_link_reference_id : String
  razorpay_payment_link_status : String
  razorpay_signature : String
deriving DecidableEq, Repr

/-- A Razorpay payment as returned by `razorpay.payments.fetch`. -/
structure RzpPayment where
  amount : ℚ
  currency : String
  notesName : Option String
  notesPhone : Option String
  status : String
deriving DecidableEq, Repr

/-- Response of GET /api/verify-payment. -/
inductive LinkVerifyResp where
  | err (status : ℕ) (msg : String)
  | ok (payment_id : String) (amount : ℚ) (currency name phone status : String)
deriving DecidableEq, Repr

/-- Handler of GET /api/verify-payment: reject missing identifiers (400),
an unconfigured provider (503), and a signature differing from the HMAC of
the four pipe-joined callback fields (400); then fetch the payment
(`fetch`, `none` modelling a provider throw surfaced as a 500) and answer
success with its details. -/
def verifyLinkPayment (configured : Bool) (hmac : String → String)
    (fetch : String → Option RzpPayment) (r : LinkVerifyReq) : LinkVerifyResp :=
  if r.razorpay_payment_id = "" ∨ r.razorpay_payment_link_id = "" ∨
      r.razorpay_signature = "" then
    .err 400 "Missing payment parameters"
  else if configured = false then .err 503 "Payment service not configured"
  else if hmac (r.razorpay_payment_link_id ++ "|" ++ r.razorpay_payment_link_reference_id
      ++ "|" ++ r.razorpay_payment_link_status ++ "|" ++ r.razorpay_payment_id)
      ≠ r.razorpay_signature then
    .err 400 "Invalid payment signature"
  else
    match fetch r.razorpay_payment_id with
    | none => .err 500 "Failed to fetch payment details"
    | some p =>
      .ok r.razorpay_payment_id (p.amount / 100) p.currency (p.notesName.getD "")
        (p.notesPhone.getD "") p.status

/-- Whether a verify-order-payment response is the success JSON. -/
def OrderVerifyResp.isOk : OrderVerifyResp → Bool
  | .ok _ _ _ _ _ => true
  | .err _ _ => false

/-- The client-reported amount of a verify-order-payment response, when it
is the success JSON. -/
def OrderVerifyResp.amountOf : OrderVerifyResp → Option (Option ℚ)
  | .ok _ _ a _ _ => some a
  | .err _ _ => none

/-- Whether a verify-payment (link flow) response is the success JSON. -/
def LinkVerifyResp.isOk : LinkVerifyResp → Bool
  | .ok _ _ _ _ _ _ => true
  | .err _ _ => false

/-- The pipe-joined payload the link-flow verification signs. -/
def linkPayload (r : LinkVerifyReq) : String :=
  r.razorpay_payment_link_id ++ "|" ++ r.razorpay_payment_link_reference_id ++ "|" ++
    r.razorpay_payment_link_status ++ "|" ++ r.razorpay_payment_id

/-- A sample visit by artist "A" on 2024-01-15 with the fractional total
10.6, used to instantiate the analytics theorems. -/
def visitA : Visit where
  name := "n1"
  contact := "c1"
  age := 30
  gender := "Female"
  date := mkLocalMs 2024 1 15 12 0 0 0
  startH := 9
  startM := 0
  endH := 10
  endM := 0
  artist := "A"
  serviceType := "Haircut"
  services := [{ name := "Classic Haircut", price := 300 }]
  filledBy := "F"
  subtotal := 300
  discountPercent := 0
  discountAmount := 0
  finalTotal := 53 / 5
  paymentStatus := "success"
  razorpayPaymentId := none

/-- A sample visit by artist "B" with the fractional total 10.9. -/
def visitB : Visit :=
  { visitA with contact := "c2", artist := "B", finalTotal := 109 / 10 }

/-- The sample visit by "A" with an integer total. -/
def visitAInt : Visit :=
  { visitA with finalTotal := 300 }

/-- The sample visit by "B" with an integer total. -/
def visitBInt : Visit :=
  { visitB with finalTotal := 200 }

/-- A concrete January 2024 date-range query. -/
def quJan : DateQuery := { fromQ := some (2024, 1, 1), toQ := some (2024, 1, 31) }

/-- A concrete current time for the dateFilter defaults. -/
def clk : Clock := { year := 2024, month := 2, day := 10 }

/-! ### General lemmas about the embedded combinators -/

theorem foldl_add_map_sum {α : Type} (g : α → ℚ) (l : List α) (a : ℚ) :
    l.foldl (fun s v => s + g v) a = a + (l.map g).sum := by
  induction l generalizing a with
  | nil => simp
  | cons x xs ih => simp [ih, add_assoc]

theorem keyOrder_go_nodup {α : Type} (f : α → String) (l : List α) (acc : List String)
    (h : acc.Nodup) :
    (l.foldl (fun acc v => if f v ∈ acc then acc else acc ++ [f v]) acc).Nodup := by
  induction l generalizing acc with
  | nil => simpa using h
  | cons x xs ih =>
    simp only [List.foldl_cons]
    by_cases hx : f x ∈ acc
    · simpa [hx] using ih _ h
    · have h2 : (acc ++ [f x]).Nodup :=
        ((List.perm_append_singleton _ _).nodup_iff).2 (List.nodup_cons.2 ⟨hx, h⟩)
      simpa [hx] using ih _ h2

theorem keyOrder_go_mem {α : Type} (f : α → String) (l : List α) (acc : List String)
    (a : String) :
    a ∈ l.foldl (fun acc v => if f v ∈ acc then acc else acc ++ [f v]) acc ↔
      a ∈ acc ∨ a ∈ l.map f := by
  induction l generalizing acc with
  | nil => simp
  | cons x xs ih =>
    simp only [List.foldl_cons, List.map_cons, List.mem_cons]
    by_cases hx : f x ∈ acc
    · rw [if_pos hx, ih]
      constructor
      · rintro (h | h)
        · exact Or.inl h
        · exact Or.inr (Or.inr h)
      · rintro (h | h | h)
        · exact Or.inl h
        · exact Or.inl (h ▸ hx)
        · exact Or.inr h
    · rw [if_neg hx, ih]
      simp only [List.mem_append, List.mem_singleton]
      tauto

theorem keyOrder_nodup {α : Type} (f : α → String) (l : List α) : (keyOrder f l).Nodup :=
  keyOrder_go_nodup f l [] List.nodup_nil

theorem mem_keyOrder {α : Type} (f : α → String) (l : List α) (a : String) :
    a ∈ keyOrder f l ↔ a ∈ l.map f := by
  rw [keyOrder, keyOrder_go_mem]
  simp

theorem keyOrder_perm_dedup {α : Type} (f : α → String) (l : List α) :
    (keyOrder f l).Perm (l.map f).dedup := by
  refine List.perm_of_nodup_nodup_toFinset_eq (keyOrder_nodup f l) (List.nodup_dedup _) ?_
  ext a
  simp [List.mem_toFinset, mem_keyOrder, List.mem_dedup]

theorem keyOrder_length {α : Type} (f : α → String) (l : List α) :
    (keyOrder f l).length = (l.map f).dedup.length :=
  (keyOrder_perm_dedup f l).length_eq

theorem insDesc_perm {α : Type} (key : α → ℚ) (x : α) (l : List α) :
    (insDesc key x l).Perm (x :: l) := by
  induction l with
  | nil => simp [insDesc]
  | cons y ys ih =>
    by_cases h : key x ≤ key y
    · rw [insDesc, if_pos h]
      exact (ih.cons y).trans (List.Perm.swap x y ys)
    · rw [insDesc, if_neg h]

theorem sortGo_perm {α : Type} (key : α → ℚ) (l acc : List α) :
    (l.foldl (fun acc x => insDesc key x acc) acc).Perm (acc ++ l) := by
  induction l generalizing acc with
  | nil => simp
  | cons x xs ih =>
    simp only [List.foldl_cons]
    refine (ih (insDesc key x acc)).trans ?_
    refine (List.Perm.append_right xs (insDesc_perm key x acc)).trans ?_
    exact List.perm_middle.symm

theorem stableSortDesc_perm {α : Type} (key : α → ℚ) (l : List α) :
    (stableSortDesc key l).Perm l := by
  simpa using sortGo_perm key l []

theorem pairwise_insDesc {α : Type} (key : α → ℚ) (x : α) (l : List α)
    (h : l.Pairwise (fun a b => key b ≤ key a)) :
    (insDesc key x l).Pairwise (fun a b => key b ≤ key a) := by
  induction l with
  | nil => simp [insDesc]
  | cons y ys ih =>
    rcases List.pairwise_cons.1 h with ⟨hy, hys⟩
    by_cases hxy : key x ≤ key y
    · rw [insDesc, if_pos hxy]
      refine List.pairwise_cons.2 ⟨?_, ih hys⟩
      intro z hz
      rcases List.mem_cons.1 ((insDesc_perm key x ys).mem_iff.1 hz) with hz2 | hz2
      · exact hz2 ▸ hxy
      · exact hy z hz2
    · rw [insDesc, if_neg hxy]
      refine List.pairwise_cons.2 ⟨?_, h⟩
      intro z hz
      rcases List.mem_cons.1 hz with hz2 | hz2
      · exact hz2 ▸ (le_of_not_le hxy)
      · exact (hy z hz2).trans (le_of_not_le hxy)

theorem pairwise_sortGo {α : Type} (key : α → ℚ) (l acc : List α)
    (h : acc.Pairwise (fun a b => key b ≤ key a)) :
    (l.foldl (fun acc x => insDesc key x acc) acc).Pairwise (fun a b => key b ≤ key a) := by
  induction l generalizing acc with
  | nil => simpa using h
  | cons x xs ih =>
    simp only [List.foldl_cons]
    exact ih _ (pairwise_insDesc key x acc h)

theorem pairwise_stableSortDesc {α : Type} (key : α → ℚ) (l : List α) :
    (stableSortDesc key l).Pairwise (fun a b => key b ≤ key a) :=
  pairwise_sortGo key l [] List.Pairwise.nil

theorem insDesc_map {α β : Type} (f : α → β) (k1 : α → ℚ) (k2 : β → ℚ)
    (hk : ∀ a, k2 (f a) = k1 a) (x : α) (l : List α) :
    insDesc k2 (f x) (l.map f) = (insDesc k1 x l).map f := by
  induction l with
  | nil => rfl
  | cons y ys ih =>
    simp only [List.map_cons, insDesc, hk]
    by_cases h : k1 x ≤ k1 y
    · rw [if_pos h, if_pos h, ih]
      rfl
    · rw [if_neg h, if_neg h]
      rfl

theorem sortGo_map {α β : Type} (f : α → β) (k1 : α → ℚ) (k2 : β → ℚ)
    (hk : ∀ a, k2 (f a) = k1 a) (l acc : List α) :
    (l.map f).foldl (fun acc x => insDesc k2 x acc) (acc.map f) =
      (l.foldl (fun acc x => insDesc k1 x acc) acc).map f := by
  induction l generalizing acc with
  | nil => rfl
  | cons x xs ih =>
    simp only [List.map_cons, List.foldl_cons]
    rw [insDesc_map f k1 k2 hk, ih]

theorem stableSortDesc_map {α β : Type} (f : α → β) (k1 : α → ℚ) (k2 : β → ℚ)
    (hk : ∀ a, k2 (f a) = k1 a) (l : List α) :
    stableSortDesc k2 (l.map f) = (stableSortDesc k1 l).map f := by
  simpa using sortGo_map f k1 k2 hk l []

theorem attachRanks_go_rank (l : List EmpStats) (k : ℕ) :
    ((List.enumFrom k l).map (fun p =>
      ({ rank := p.1 + 1
         name := p.2.name
         customersServed := p.2.customersServed
         uniqueCustomers := p.2.uniqueCustomers
         revenue := p.2.revenue
         hoursWorked := p.2.hoursWorked } : RankedEmp))).map RankedEmp.rank =
      List.range' (k + 1) l.length := by
  induction l generalizing k with
  | nil => rfl
  | cons x xs ih =>
    simp only [List.enumFrom, List.map_cons, List.length_cons, List.range'_succ]
    exact congrArg _ (ih (k + 1))

theorem attachRanks_rank (l : List EmpStats) :
    (attachRanks l).map RankedEmp.rank = List.range' 1 l.length :=
  attachRanks_go_rank l 0

theorem attachRanks_pairwise_revenue (l : List EmpStats)
    (h : l.Pairwise (fun a b => ((b.revenue : ℚ)) ≤ ((a.revenue : ℚ)))) :
    (attachRanks l).Pairwise (fun a b => b.revenue ≤ a.revenue) := by
  rw [attachRanks, List.pairwise_map]
  have h2 : List.Pairwise (fun a b => b.revenue ≤ a.revenue)
      ((List.enumFrom 0 l).map Prod.snd) := by
    rw [List.enumFrom_map_snd]
    refine h.imp ?_
    intro a b hab
    exact_mod_cast hab
  rw [List.pairwise_map] at h2
  exact h2.imp (fun hab => hab)

theorem attachRanks_go_find (l : List EmpStats) (k : ℕ) (nm : String) :
    (((List.enumFrom k l).map (fun p =>
      ({ rank := p.1 + 1
         name := p.2.name
         customersServed := p.2.customersServed
         uniqueCustomers := p.2.uniqueCustomers
         revenue := p.2.revenue
         hoursWorked := p.2.hoursWorked } : RankedEmp))).find?
        (fun e => decide (e.name = nm))).map RankedEmp.rank =
      (l.findIdx? (fun e => decide (e.name = nm)) k).map (fun i => i + 1) := by
  induction l generalizing k with
  | nil => rfl
  | cons x xs ih =>
    simp only [List.enumFrom, List.map_cons, List.find?_cons, List.findIdx?_cons]
    by_cases h : x.name = nm
    · simp [h]
    · have hd : (decide (x.name = nm)) = false := by simpa using h
      simp only [hd]
      simpa using ih (k + 1)

theorem attachRanks_find (l : List EmpStats) (nm : String) :
    ((attachRanks l).find? (fun e => decide (e.name = nm))).map RankedEmp.rank =
      (l.findIdx? (fun e => decide (e.name = nm))).map (fun i => i + 1) :=
  attachRanks_go_find l 0 nm

theorem findIdx?_go_isSome {α : Type} (p : α → Bool) (l : List α) (x : α)
    (hx : x ∈ l) (hp : p x = true) : ∀ k : ℕ, ∃ i, l.findIdx? p k = some i := by
  induction l with
  | nil => exact absurd hx (List.not_mem_nil x)
  | cons y ys ih =>
    intro k
    by_cases hy : p y = true
    · exact ⟨k, by rw [List.findIdx?_cons, if_pos hy]⟩
    · rcases List.mem_cons.1 hx with h | h
      · exact absurd (h ▸ hp) hy
      · rcases ih h (k + 1) with ⟨i, hi⟩
        exact ⟨i, by rw [List.findIdx?_cons, if_neg hy, hi]⟩

theorem intSum_of_int (l : List ℚ) (h : ∀ x ∈ l, ∃ n : ℤ, x = (n : ℚ)) :
    ∃ m : ℤ, l.sum = (m : ℚ) := by
  induction l with
  | nil => exact ⟨0, by simp⟩
  | cons x xs ih =>
    rcases h x (List.mem_cons_self x xs) with ⟨n, hn⟩
    rcases ih (fun y hy => h y (List.mem_cons_of_mem x hy)) with ⟨m, hm⟩
    exact ⟨n + m, by simp [hn, hm]⟩

theorem jsRound_intCast (m : ℤ) : jsRound (m : ℚ) = m := by
  rw [jsRound, Int.floor_int_add]
  norm_num

theorem attachRanks_length (l : List EmpStats) : (attachRanks l).length = l.length := by
  simp [attachRanks]

theorem empEntries_length (visits : List Visit) :
    (empEntries visits).length = (visits.map Visit.artist).dedup.length := by
  rw [empEntries, List.length_map, keyOrder_length]

theorem findVisits_eq_filter (now : Clock) (q : DateQuery) (vs : List Visit)
    (y1 m1 d1 y2 m2 d2 : ℤ)
    (hf : q.fromQ = some (y1, m1, d1)) (ht : q.toQ = some (y2, m2, d2)) :
    findVisits vs (dateFilter now q) =
      vs.filter (fun v => decide (mkLocalMs y1 m1 d1 0 0 0 0 ≤ v.date ∧
        v.date ≤ mkLocalMs y2 m2 d2 23 59 59 999)) := by
  rw [findVisits, dateFilter, hf, ht]

/-! ### Claim theorems -/

/-- C2: for every visit set and every request carrying both `from` and `to`,
GET /api/analytics/summary returns totalRevenue equal to the sum of
finalTotal over exactly those visits whose date lies in the inclusive range
from local midnight of `from` to local end-of-day of `to`, and avgTicket
equal to totalRevenue / totalVisits rounded to the nearest integer, with
avgTicket = 0 when no visits match. -/
theorem C2_summary_revenue_avgTicket (now : Clock) (q : DateQuery) (vs : List Visit)
    (y1 m1 d1 y2 m2 d2 : ℤ)
    (hf : q.fromQ = some (y1, m1, d1)) (ht : q.toQ = some (y2, m2, d2)) :
    (summaryHandler now q vs).totalRevenue =
      ((vs.filter (fun v => decide (mkLocalMs y1 m1 d1 0 0 0 0 ≤ v.date ∧
        v.date ≤ mkLocalMs y2 m2 d2 23 59 59 999))).map Visit.finalTotal).sum ∧
    (summaryHandler now q vs).avgTicket =
      (if (vs.filter (fun v => decide (mkLocalMs y1 m1 d1 0 0 0 0 ≤ v.date ∧
            v.date ≤ mkLocalMs y2 m2 d2 23 59 59 999))).length = 0 then 0
       else jsRound ((((vs.filter (fun v => decide (mkLocalMs y1 m1 d1 0 0 0 0 ≤ v.date ∧
            v.date ≤ mkLocalMs y2 m2 d2 23 59 59 999))).map Visit.finalTotal).sum) /
          (((vs.filter (fun v => decide (mkLocalMs y1 m1 d1 0 0 0 0 ≤ v.date ∧
            v.date ≤ mkLocalMs y2 m2 d2 23 59 59 999))).length : ℚ)))) := by
  have hfil := findVisits_eq_filter now q vs y1 m1 d1 y2 m2 d2 hf ht
  constructor
  · simp only [summaryHandler, hfil, foldl_add_map_sum, zero_add]
  · simp only [summaryHandler, hfil, foldl_add_map_sum, zero_add]
    rcases Nat.eq_zero_or_pos (vs.filter (fun v => decide (mkLocalMs y1 m1 d1 0 0 0 0 ≤ v.date ∧
        v.date ≤ mkLocalMs y2 m2 d2 23 59 59 999))).length with h0 | h0
    · simp only [h0]
      norm_num
    · rw [if_pos h0, if_neg (Nat.pos_iff_ne_zero.1 h0)]

/-- C2 witness: the summary equations instantiated at a concrete request. -/
theorem C2_summary_revenue_avgTicket_witness :
    (summaryHandler ⟨2024, 2, 10⟩ ⟨some (2024, 1, 1), some (2024, 1, 31)⟩ []).totalRevenue =
      ((([] : List Visit).filter (fun v => decide (mkLocalMs 2024 1 1 0 0 0 0 ≤ v.date ∧
        v.date ≤ mkLocalMs 2024 1 31 23 59 59 999))).map Visit.finalTotal).sum ∧
    (summaryHandler ⟨2024, 2, 10⟩ ⟨some (2024, 1, 1), some (2024, 1, 31)⟩ []).avgTicket =
      (if (([] : List Visit).filter (fun v => decide (mkLocalMs 2024 1 1 0 0 0 0 ≤ v.date ∧
            v.date ≤ mkLocalMs 2024 1 31 23 59 59 999))).length = 0 then 0
       else jsRound (((([] : List Visit).filter (fun v => decide (mkLocalMs 2024 1 1 0 0 0 0 ≤ v.date ∧
            v.date ≤ mkLocalMs 2024 1 31 23 59 59 999))).map Visit.finalTotal).sum /
          ((([] : List Visit).filter (fun v => decide (mkLocalMs 2024 1 1 0 0 0 0 ≤ v.date ∧
            v.date ≤ mkLocalMs 2024 1 31 23 59 59 999))).length : ℚ))) :=
  C2_summary_revenue_avgTicket ⟨2024, 2, 10⟩ ⟨some (2024, 1, 1), some (2024, 1, 31)⟩ []
    2024 1 1 2024 1 31 rfl rfl

/-- C4: the /employees leaderboard's ranks are exactly the integers 1..N in
order (so rank i + 1 immediately follows rank i), the list is ordered by
non-increasing revenue, and N is the number of distinct artists among the
matching visits. -/
theorem C4_leaderboard_ranks (now : Clock) (q : DateQuery) (vs : List Visit) :
    (employeesHandler now q vs).map RankedEmp.rank =
      List.range' 1 (employeesHandler now q vs).length ∧
    (employeesHandler now q vs).Pairwise (fun a b => b.revenue ≤ a.revenue) ∧
    (employeesHandler now q vs).length =
      ((findVisits vs (dateFilter now q)).map Visit.artist).dedup.length := by
  refine ⟨?_, ?_, ?_⟩
  · rw [employeesHandler, attachRanks_rank, attachRanks_length]
  · exact attachRanks_pairwise_revenue _
      (pairwise_stableSortDesc (fun e : EmpStats => ((e.revenue : ℚ))) _)
  · rw [employeesHandler, attachRanks_length,
      (stableSortDesc_perm _ _).length_eq, empEntries_length]

/-- C3: GET /api/analytics/repeat-customers returns repeatRate equal to
(number of distinct contacts with more than one matching visit) divided by
(number of distinct contacts), times 100, rounded to one decimal place, and
repeatRate = 0 when there are zero distinct contacts in range. -/
theorem C3_repeat_rate (now : Clock) (q : DateQuery) (vs : List Visit) :
    (repeatCustomersHandler now q vs).repeatRate =
      (if ((findVisits vs (dateFilter now q)).map Visit.contact).dedup.length = 0 then 0
       else mongoRound1
        (((((findVisits vs (dateFilter now q)).map Visit.contact).dedup.filter
            (fun c => decide (1 < ((findVisits vs (dateFilter now q)).filter
              (fun v => decide (v.contact = c))).length))).length : ℚ) /
          ((((findVisits vs (dateFilter now q)).map Visit.contact).dedup.length : ℚ)) * 100)) := by
  have hperm := keyOrder_perm_dedup Visit.contact (findVisits vs (dateFilter now q))
  by_cases hko : keyOrder Visit.contact (findVisits vs (dateFilter now q)) = []
  · have hd : ((findVisits vs (dateFilter now q)).map Visit.contact).dedup = [] :=
      ((hko ▸ hperm).symm).eq_nil
    simp [repeatCustomersHandler, hko, hd]
  · have hpos : 0 < (keyOrder Visit.contact (findVisits vs (dateFilter now q))).length :=
      List.length_pos.2 hko
    have hlen := keyOrder_length Visit.contact (findVisits vs (dateFilter now q))
    have hmapne : (keyOrder Visit.contact (findVisits vs (dateFilter now q))).map
        (fun c => ((findVisits vs (dateFilter now q)).filter
          (fun v => decide (v.contact = c))).length) ≠ [] := by
      simpa using hko
    have hflt : (((keyOrder Visit.contact (findVisits vs (dateFilter now q))).map
        (fun c => ((findVisits vs (dateFilter now q)).filter
          (fun v => decide (v.contact = c))).length)).filter
            (fun n => decide (1 < n))).length =
        ((((findVisits vs (dateFilter now q)).map Visit.contact).dedup).filter
            (fun c => decide (1 < ((findVisits vs (dateFilter now q)).filter
              (fun v => decide (v.contact = c))).length))).length := by
      rw [List.filter_map, List.length_map]
      exact (hperm.filter _).length_eq
    simp only [repeatCustomersHandler, List.isEmpty_eq_true, hmapne, if_false,
      List.length_map, hlen]
    rw [if_pos, if_neg, hflt]
    · omega
    · omega

/-- C9: for an artist name with zero matching visits, GET
/api/analytics/employee/:name responds 200 with an all-zero record and an
empty topServices list, not a not-found error. -/
theorem C9_zero_visits_detail (now : Clock) (q : DateQuery) (nm : String) (vs : List Visit)
    (h : (findVisits vs (dateFilter now q)).filter (fun v => decide (v.artist = nm)) = []) :
    employeeDetailResponse now q nm vs =
      (200, { name := nm, customersServed := 0, uniqueCustomers := 0, revenue := 0,
              hoursWorked := 0, avgRevenuePerVisit := 0, topServices := [], rank := 0,
              totalArtists := 0 }) := by
  simp [employeeDetailResponse, employeeDetailHandler, h]

/-- C9 witness: the all-zero record at a concrete empty store. -/
theorem C9_zero_visits_detail_witness :
    employeeDetailResponse ⟨2024, 2, 10⟩ ⟨some (2024, 1, 1), some (2024, 1, 31)⟩ "Priya Sharma" [] =
      (200, { name := "Priya Sharma", customersServed := 0, uniqueCustomers := 0, revenue := 0,
              hoursWorked := 0, avgRevenuePerVisit := 0, topServices := [], rank := 0,
              totalArtists := 0 }) :=
  C9_zero_visits_detail ⟨2024, 2, 10⟩ ⟨some (2024, 1, 1), some (2024, 1, 31)⟩ "Priya Sharma" [] rfl

/-- C5 counterexample: with zero matching visits the export sheet is the
empty sheet, and in particular it does not contain the header row the
claim asserts. -/
theorem C5_counterexample :
    exportHandler (fun _ => "") ⟨2024, 2, 10⟩ ⟨some (2024, 1, 1), some (2024, 1, 31)⟩ [] = [] ∧
    ([Cell.s "Date", Cell.s "Name", Cell.s "Contact", Cell.s "Age", Cell.s "Gender",
      Cell.s "Start Time", Cell.s "End Time", Cell.s "Artist", Cell.s "Service Type",
      Cell.s "Services", Cell.s "Filled By", Cell.s "Subtotal", Cell.s "Discount (%)",
      Cell.s "Discount (₹)", Cell.s "Final Total", Cell.s "Payment Status",
      Cell.s "Payment ID"]) ∉
      exportHandler (fun _ => "") ⟨2024, 2, 10⟩ ⟨some (2024, 1, 1), some (2024, 1, 31)⟩ [] := by
  constructor
  · rfl
  · intro hmem
    simp only [show exportHandler (fun _ => "") ⟨2024, 2, 10⟩
      ⟨some (2024, 1, 1), some (2024, 1, 31)⟩ [] = [] from rfl] at hmem
    exact List.not_mem_nil _ hmem

/-- C5 (amended): exporting zero matching visits yields a sheet with no
rows at all — neither data rows nor a header row, since json_to_sheet
derives the header from the records. -/
theorem C5_empty_export (fmt : ℤ → String) (now : Clock) (q : DateQuery) (vs : List Visit)
    (h : findVisits vs (dateFilter now q) = []) :
    exportHandler fmt now q vs = [] := by
  simp [exportHandler, h, jsonToSheet, stableSortDesc]

/-- C5 witness: the empty sheet at a concrete empty store. -/
theorem C5_empty_export_witness :
    exportHandler (fun _ => "d") ⟨2024, 2, 10⟩ ⟨some (2024, 1, 1), some (2024, 1, 31)⟩ [] = [] :=
  C5_empty_export (fun _ => "d") ⟨2024, 2, 10⟩ ⟨some (2024, 1, 1), some (2024, 1, 31)⟩ [] rfl

/-- C1: with all required identifiers present, POST /api/verify-order-payment
answers success exactly when the supplied signature equals the HMAC of
order_id + "|" + payment_id, and GET /api/verify-payment (provider
configured, upstream fetch succeeding) answers success exactly when the
signature equals the HMAC of the four pipe-joined link fields; any request
whose signature differs from the HMAC of its own concatenation — in
particular a valid signature reused after mutating any field so that the
HMAC of the concatenation changes — is rejected with a 400 response. -/
theorem C1_signature_iff (hmac : String → String) (r : OrderVerifyReq)
    (l : LinkVerifyReq) (fetch : String → Option RzpPayment) (p : RzpPayment)
    (hr1 : r.razorpay_order_id ≠ "") (hr2 : r.razorpay_payment_id ≠ "")
    (hr3 : r.razorpay_signature ≠ "")
    (hl1 : l.razorpay_payment_id ≠ "") (hl2 : l.razorpay_payment_link_id ≠ "")
    (hl3 : l.razorpay_signature ≠ "")
    (hfetch : fetch l.razorpay_payment_id = some p) :
    ((verifyOrderPayment hmac r).isOk = true ↔
      r.razorpay_signature = hmac (r.razorpay_order_id ++ "|" ++ r.razorpay_payment_id)) ∧
    (r.razorpay_signature ≠ hmac (r.razorpay_order_id ++ "|" ++ r.razorpay_payment_id) →
      verifyOrderPayment hmac r = .err 400 "Invalid payment signature") ∧
    (∀ r2 : OrderVerifyReq, r2.razorpay_order_id ≠ "" → r2.razorpay_payment_id ≠ "" →
      r2.razorpay_signature = r.razorpay_signature →
      r.razorpay_signature = hmac (r.razorpay_order_id ++ "|" ++ r.razorpay_payment_id) →
      hmac (r2.razorpay_order_id ++ "|" ++ r2.razorpay_payment_id) ≠
        hmac (r.razorpay_order_id ++ "|" ++ r.razorpay_payment_id) →
      verifyOrderPayment hmac r2 = .err 400 "Invalid payment signature") ∧
    ((verifyLinkPayment true hmac fetch l).isOk = true ↔
      l.razorpay_signature = hmac (linkPayload l)) ∧
    (l.razorpay_signature ≠ hmac (linkPayload l) →
      verifyLinkPayment true hmac fetch l = .err 400 "Invalid payment signature") := by
  refine ⟨?_, ?_, ?_, ?_, ?_⟩
  · by_cases hs : hmac (r.razorpay_order_id ++ "|" ++ r.razorpay_payment_id) =
      r.razorpay_signature
    · simp [verifyOrderPayment, hr1, hr2, hr3, hs, OrderVerifyResp.isOk, eq_comm]
    · simp [verifyOrderPayment, hr1, hr2, hr3, hs, OrderVerifyResp.isOk]
      exact fun h => hs h.symm
  · intro hne
    have hs : hmac (r.razorpay_order_id ++ "|" ++ r.razorpay_payment_id) ≠
        r.razorpay_signature := fun h => hne h.symm
    simp [verifyOrderPayment, hr1, hr2, hr3, hs]
  · intro r2 h21 h22 h2sig hsig hdiff
    have hs : hmac (r2.razorpay_order_id ++ "|" ++ r2.razorpay_payment_id) ≠
        r2.razorpay_signature := by
      rw [h2sig, hsig]
      exact hdiff
    have h23 : r2.razorpay_signature ≠ "" := h2sig ▸ hr3
    simp [verifyOrderPayment, h21, h22, h23, hs]
  · by_cases hs : hmac (linkPayload l) = l.razorpay_signature
    · simp [verifyLinkPayment, hl1, hl2, hl3, linkPayload] at hs ⊢
      simp [hs, hfetch, LinkVerifyResp.isOk, eq_comm]
    · simp [verifyLinkPayment, hl1, hl2, hl3, linkPayload] at hs ⊢
      simp [hs, LinkVerifyResp.isOk]
      exact fun h => hs h.symm
  · intro hne
    have hs : hmac (linkPayload l) ≠ l.razorpay_signature := fun h => hne h.symm
    simp [verifyLinkPayment, hl1, hl2, hl3, linkPayload] at hs ⊢
    simp [hs]

/-- C1 witness: a concrete accepting and rejecting instantiation. -/
theorem C1_signature_iff_witness :
    (((verifyOrderPayment (fun s => s ++ "#")
        ⟨"o1", "p1", "o1|p1#", "n", "ph", some 500⟩).isOk = true ↔
      "o1|p1#" = (fun s : String => s ++ "#") ("o1" ++ "|" ++ "p1")) ∧
     ("o1|p1#" ≠ (fun s : String => s ++ "#") ("o1" ++ "|" ++ "p1") →
      verifyOrderPayment (fun s => s ++ "#") ⟨"o1", "p1", "o1|p1#", "n", "ph", some 500⟩ =
        .err 400 "Invalid payment signature") ∧
     (∀ r2 : OrderVerifyReq, r2.razorpay_order_id ≠ "" → r2.razorpay_payment_id ≠ "" →
      r2.razorpay_signature = "o1|p1#" →
      "o1|p1#" = (fun s : String => s ++ "#") ("o1" ++ "|" ++ "p1") →
      (fun s : String => s ++ "#") (r2.razorpay_order_id ++ "|" ++ r2.razorpay_payment_id) ≠
        (fun s : String => s ++ "#") ("o1" ++ "|" ++ "p1") →
      verifyOrderPayment (fun s => s ++ "#") r2 = .err 400 "Invalid payment signature") ∧
     ((verifyLinkPayment true (fun s => s ++ "#")
        (fun _ => some ⟨50000, "INR", some "n", some "ph", "paid"⟩)
        ⟨"pay_1", "plink_1", "ref_1", "paid", "plink_1|ref_1|paid|pay_1#"⟩).isOk = true ↔
      "plink_1|ref_1|paid|pay_1#" = (fun s : String => s ++ "#")
        (linkPayload ⟨"pay_1", "plink_1", "ref_1", "paid", "plink_1|ref_1|paid|pay_1#"⟩)) ∧
     ("plink_1|ref_1|paid|pay_1#" ≠ (fun s : String => s ++ "#")
        (linkPayload ⟨"pay_1", "plink_1", "ref_1", "paid", "plink_1|ref_1|paid|pay_1#"⟩) →
      verifyLinkPayment true (fun s => s ++ "#")
        (fun _ => some ⟨50000, "INR", some "n", some "ph", "paid"⟩)
        ⟨"pay_1", "plink_1", "ref_1", "paid", "plink_1|ref_1|paid|pay_1#"⟩ =
        .err 400 "Invalid payment signature")) :=
  C1_signature_iff (fun s => s ++ "#") ⟨"o1", "p1", "o1|p1#", "n", "ph", some 500⟩
    ⟨"pay_1", "plink_1", "ref_1", "paid", "plink_1|ref_1|paid|pay_1#"⟩
    (fun _ => some ⟨50000, "INR", some "n", some "ph", "paid"⟩)
    ⟨50000, "INR", some "n", some "ph", "paid"⟩
    (by decide) (by decide) (by decide) (by decide) (by decide) (by decide) rfl

/-- C6 counterexample: the amount 199/200 = 0.995 rupees is below one
currency unit, yet POST /api/create-order accepts it
(Math.round(0.995 × 100) = 100) and creates an order, and POST
/api/create-payment-link likewise accepts it and creates a link, instead
of answering 400. -/
theorem C6_counterexample :
    (199 / 200 : ℚ) < 1 ∧
    createOrderHandler true (fun p => some { id := "order_1", amount := p, currency := "INR" })
      "a" "9" { truthy := true, numval := some (199 / 200) } =
      .ok "order_1" 100 "INR" "a".trim "9".trim ∧
    createPaymentLinkHandler true
      (fun p => some { short_url := "https://rzp.io/l/x", amount := p })
      "a" "9" { truthy := true, numval := some (199 / 200) } =
      .ok "https://rzp.io/l/x" := by
  have hjs : jsRound ((199 / 200 : ℚ) * 100) = 100 := by
    rw [jsRound]
    norm_num
  refine ⟨by norm_num, ?_, ?_⟩
  · simp [createOrderHandler, validatePaymentInput, hjs]
  · simp [createPaymentLinkHandler, validatePaymentInput, hjs]

/-- C6 (amended): create-order and create-payment-link each answer 400 —
for every provider behaviour, so no order and no link is created —
whenever the amount is falsy, non-numeric (NaN), or has
Math.round(amount × 100) below 100; equivalently, numeric amounts below
199/200 = 0.995 rupees are rejected (amounts in [0.995, 1) are accepted
despite being below one rupee). -/
theorem C6_invalid_amount_rejected (provO : ℤ → Option RzpOrder)
    (provL : ℤ → Option RzpPaymentLink) (name phone : String)
    (amt : AmountField)
    (h : amt.truthy = false ∨ amt.numval = none ∨
      ∃ a : ℚ, amt.numval = some a ∧ jsRound (a * 100) < 100) :
    (∃ m, createOrderHandler true provO name phone amt = .err 400 m) ∧
    (∃ m, createPaymentLinkHandler true provL name phone amt = .err 400 m) ∧
    (∀ a : ℚ, a < 199 / 200 → jsRound (a * 100) < 100) := by
  have hval : ∃ m, validatePaymentInput name phone amt = .invalid m := by
    by_cases hc : name = "" ∨ phone = "" ∨ amt.truthy = false
    · exact ⟨"name, phone and amount are required", by simp [validatePaymentInput, hc]⟩
    · refine ⟨"Amount must be at least ₹1", ?_⟩
      rcases h with h | h | ⟨a, ha, hlt⟩
      · exact absurd (Or.inr (Or.inr h)) hc
      · simp [validatePaymentInput, hc, h]
      · simp [validatePaymentInput, hc, ha, hlt]
  obtain ⟨m, hm⟩ := hval
  refine ⟨⟨m, ?_⟩, ⟨m, ?_⟩, ?_⟩
  · simp [createOrderHandler, hm]
  · simp [createPaymentLinkHandler, hm]
  · intro a ha
    rw [jsRound]
    refine Int.floor_lt.2 ?_
    push_cast
    linarith

/-- C6 witness: a NaN amount is rejected with a 400 by both creation
endpoints. -/
theorem C6_invalid_amount_rejected_witness :
    (∃ m, createOrderHandler true
      (fun p => some { id := "order_1", amount := p, currency := "INR" })
      "a" "9" { truthy := true, numval := none } = .err 400 m) ∧
    (∃ m, createPaymentLinkHandler true
      (fun p => some { short_url := "https://rzp.io/l/x", amount := p })
      "a" "9" { truthy := true, numval := none } = .err 400 m) ∧
    (∀ a : ℚ, a < 199 / 200 → jsRound (a * 100) < 100) :=
  C6_invalid_amount_rejected (fun p => some { id := "order_1", amount := p, currency := "INR" })
    (fun p => some { short_url := "https://rzp.io/l/x", amount := p })
    "a" "9" { truthy := true, numval := none } (Or.inr (Or.inl rfl))

theorem jsRound_nearest (q : ℚ) : |((jsRound q : ℤ) : ℚ) - q| ≤ 1 / 2 := by
  rw [jsRound, abs_le]
  constructor
  · have := Int.lt_floor_add_one (q + 1 / 2)
    linarith
  · have := Int.floor_le (q + 1 / 2)
    linarith

/-- C7: for every valid order request with numeric rupee amount a, the
paise amount produced by validation and sent to the provider is
Math.round(a × 100); given the provider echoes the requested amount, the
response reports the same value; and that integer is within 1/2 of
100 × a, i.e. it is a nearest minor-unit integer. -/
theorem C7_amount_roundtrip (prov : ℤ → Option RzpOrder) (name phone : String)
    (amt : AmountField) (a : ℚ) (o : RzpOrder)
    (htr : amt.truthy = true) (hnum : amt.numval = some a)
    (hname : name ≠ "") (hphone : phone ≠ "")
    (hmin : ¬ jsRound (a * 100) < 100)
    (hprov : prov (jsRound (a * 100)) = some o) (hecho : o.amount = jsRound (a * 100)) :
    validatePaymentInput name phone amt = .ok name.trim phone.trim (jsRound (a * 100)) ∧
    createOrderHandler true prov name phone amt =
      .ok o.id (jsRound (a * 100)) o.currency name.trim phone.trim ∧
    |((jsRound (a * 100) : ℤ) : ℚ) - a * 100| ≤ 1 / 2 := by
  have hval : validatePaymentInput name phone amt =
      .ok name.trim phone.trim (jsRound (a * 100)) := by
    simp [validatePaymentInput, hname, hphone, htr, hnum, hmin]
  refine ⟨hval, ?_, jsRound_nearest (a * 100)⟩
  simp [createOrderHandler, hval, hprov, hecho]

/-- C7 witness: a ₹5 order is validated and echoed as 500 paise. -/
theorem C7_amount_roundtrip_witness :
    validatePaymentInput "a" "9" { truthy := true, numval := some 5 } =
      .ok "a".trim "9".trim (jsRound (5 * 100)) ∧
    createOrderHandler true (fun p => some { id := "order_1", amount := p, currency := "INR" })
      "a" "9" { truthy := true, numval := some 5 } =
      .ok "order_1" (jsRound (5 * 100)) "INR" "a".trim "9".trim ∧
    |((jsRound ((5 : ℚ) * 100) : ℤ) : ℚ) - (5 : ℚ) * 100| ≤ 1 / 2 :=
  C7_amount_roundtrip (fun p => some { id := "order_1", amount := p, currency := "INR" })
    "a" "9" { truthy := true, numval := some 5 } 5
    { id := "order_1", amount := jsRound ((5 : ℚ) * 100), currency := "INR" }
    rfl rfl (by decide) (by decide) (by rw [jsRound]; norm_num) rfl rfl

/-- C10: a verified order payment's success response reports the
client-supplied amount divided by 100, taken verbatim from the request
body; the same identifier/signature triple with a different numeric amount
yields a success response reporting a different amount. -/
theorem C10_amount_from_client (hmac : String → String) (r : OrderVerifyReq) (a : ℚ)
    (h1 : r.razorpay_order_id ≠ "") (h2 : r.razorpay_payment_id ≠ "")
    (h3 : r.razorpay_signature ≠ "")
    (hsig : r.razorpay_signature = hmac (r.razorpay_order_id ++ "|" ++ r.razorpay_payment_id))
    (hamt : r.amount = some a) :
    verifyOrderPayment hmac r =
      .ok r.razorpay_payment_id r.razorpay_order_id (some (a / 100)) r.name r.phone ∧
    ∀ b : ℚ, b ≠ a →
      verifyOrderPayment hmac { r with amount := some b } =
        .ok r.razorpay_payment_id r.razorpay_order_id (some (b / 100)) r.name r.phone ∧
      (b / 100 : ℚ) ≠ (a / 100 : ℚ) := by
  have hs : ¬ hmac (r.razorpay_order_id ++ "|" ++ r.razorpay_payment_id) ≠
      r.razorpay_signature := fun h => h hsig.symm
  constructor
  · simp [verifyOrderPayment, h1, h2, h3, hs, hamt]
  · intro b hb
    constructor
    · simp [verifyOrderPayment, h1, h2, h3, hs]
    · intro hE
      exact hb (by linarith)

/-- C10 witness: an accepted payment reporting amount 500 / 100 = 5,
and 600 in place of 500 reporting 6 instead. -/
theorem C10_amount_from_client_witness :
    (verifyOrderPayment (fun s => s ++ "#") ⟨"o1", "p1", "o1|p1#", "n", "ph", some 500⟩ =
      .ok "p1" "o1" (some (500 / 100)) "n" "ph" ∧
    ∀ b : ℚ, b ≠ 500 →
      verifyOrderPayment (fun s => s ++ "#")
          { (⟨"o1", "p1", "o1|p1#", "n", "ph", some 500⟩ : OrderVerifyReq) with amount := some b } =
        .ok "p1" "o1" (some (b / 100)) "n" "ph" ∧
      (b / 100 : ℚ) ≠ (500 / 100 : ℚ)) :=
  C10_amount_from_client (fun s => s ++ "#") ⟨"o1", "p1", "o1|p1#", "n", "ph", some 500⟩ 500
    (by decide) (by decide) (by decide) rfl rfl

/-- C8 counterexample: with fractional totals 10.6 ("A") and 10.9 ("B"),
both rounding to revenue 11, /employees ranks "A" first (stable sort on
the equal rounded revenues keeps insertion order) while /employee/A sorts
the raw sums and reports rank 2, so the two ranks disagree. -/
theorem C8_counterexample :
    ((employeesHandler clk quJan [visitA, visitB]).find?
      (fun e => decide (e.name = "A"))).map RankedEmp.rank = some 1 ∧
    (employeeDetailHandler clk quJan "A" [visitA, visitB]).rank = 2 := by
  norm_num [employeesHandler, employeeDetailHandler, empEntries, peerRevs, keyOrder,
    stableSortDesc, insDesc, attachRanks, findVisits, dateFilter, mkLocalMs, daysFromCivil,
    jsRound, jsRound1, calcHours, visitA, visitB, clk, quJan, List.foldl, List.filter,
    List.enum, List.enumFrom, List.find?, List.findIdx?, List.dedup]
  simp

/-- C8 (amended): provided every stored visit's finalTotal is an integer —
so that the leaderboard's Math.round(revenue) coincides with the raw
revenue sums the detail endpoint sorts by — the rank returned by
/employee/:name for an artist with at least one matching visit equals the
rank assigned to that artist by /employees over the same visit set. -/
theorem C8_detail_rank_matches_leaderboard (now : Clock) (q : DateQuery) (vs : List Visit)
    (nm : String)
    (hint : ∀ v ∈ vs, ∃ n : ℤ, v.finalTotal = (n : ℚ))
    (hvis : nm ∈ (findVisits vs (dateFilter now q)).map Visit.artist) :
    ((employeesHandler now q vs).find? (fun e => decide (e.name = nm))).map RankedEmp.rank =
      some (employeeDetailHandler now q nm vs).rank := by
  have hint2 : ∀ v ∈ findVisits vs (dateFilter now q), ∃ n : ℤ, v.finalTotal = (n : ℚ) :=
    fun v hv => hint v (List.mem_of_mem_filter hv)
  obtain ⟨v0, hv0, hv0a⟩ := List.mem_map.1 hvis
  have hne : ((findVisits vs (dateFilter now q)).filter
      (fun v => decide (v.artist = nm))).length ≠ 0 := by
    have hmem0 : v0 ∈ (findVisits vs (dateFilter now q)).filter
        (fun v => decide (v.artist = nm)) :=
      List.mem_filter.2 ⟨hv0, by simp [hv0a]⟩
    intro h0
    rw [List.length_eq_zero] at h0
    rw [h0] at hmem0
    exact List.not_mem_nil _ hmem0
  have hpeer : peerRevs (findVisits vs (dateFilter now q)) =
      (empEntries (findVisits vs (dateFilter now q))).map
        (fun e => (e.name, ((e.revenue : ℤ) : ℚ))) := by
    rw [peerRevs, empEntries, List.map_map]
    refine List.map_congr_left ?_
    intro a ha
    obtain ⟨m, hm⟩ := intSum_of_int
      (((findVisits vs (dateFilter now q)).filter
        (fun v => decide (v.artist = a))).map Visit.finalTotal)
      (fun x hx => by
        obtain ⟨v, hv, hvx⟩ := List.mem_map.1 hx
        obtain ⟨n, hn⟩ := hint2 v (List.mem_of_mem_filter hv)
        exact ⟨n, hvx ▸ hn⟩)
    have hfold : ((findVisits vs (dateFilter now q)).filter
        (fun v => decide (v.artist = a))).foldl (fun s v => s + v.finalTotal) 0 = (m : ℚ) := by
      rw [foldl_add_map_sum, zero_add, hm]
    show (a, ((findVisits vs (dateFilter now q)).filter
        (fun v => decide (v.artist = a))).foldl (fun s v => s + v.finalTotal) 0) =
      (a, ((jsRound (((findVisits vs (dateFilter now q)).filter
        (fun v => decide (v.artist = a))).foldl (fun s v => s + v.finalTotal) 0) : ℤ) : ℚ))
    exact congrArg (Prod.mk a) (by rw [hfold, jsRound_intCast])
  have hsort : stableSortDesc Prod.snd (peerRevs (findVisits vs (dateFilter now q))) =
      (stableSortDesc (fun e : EmpStats => ((e.revenue : ℤ) : ℚ))
        (empEntries (findVisits vs (dateFilter now q)))).map
          (fun e => (e.name, ((e.revenue : ℤ) : ℚ))) := by
    rw [hpeer]
    exact stableSortDesc_map _ _ _ (fun a => rfl) _
  have hkey : nm ∈ keyOrder Visit.artist (findVisits vs (dateFilter now q)) :=
    (mem_keyOrder _ _ _).2 hvis
  have he0s : ∃ e ∈ stableSortDesc (fun e : EmpStats => ((e.revenue : ℤ) : ℚ))
      (empEntries (findVisits vs (dateFilter now q))), e.name = nm := by
    refine ⟨_, ((stableSortDesc_perm _ _).mem_iff).2
      (List.mem_map_of_mem _ hkey), rfl⟩
  obtain ⟨e0, he0, he0n⟩ := he0s
  obtain ⟨i, hi⟩ := findIdx?_go_isSome (fun e => decide (e.name = nm)) _ e0 he0
    (by simp [he0n]) 0
  have hL : ((employeesHandler now q vs).find?
      (fun e => decide (e.name = nm))).map RankedEmp.rank = some (i + 1) := by
    simp only [employeesHandler]
    rw [attachRanks_find, hi]
    rfl
  have hR : (employeeDetailHandler now q nm vs).rank = i + 1 := by
    simp only [employeeDetailHandler]
    rw [if_neg hne]
    show (match (stableSortDesc Prod.snd
        (peerRevs (findVisits vs (dateFilter now q)))).findIdx?
          (fun p => decide (p.1 = nm)) with
      | some i => i + 1
      | none => 0) = i + 1
    rw [hsort, List.findIdx?_map]
    show (match (stableSortDesc (fun e : EmpStats => ((e.revenue : ℤ) : ℚ))
        (empEntries (findVisits vs (dateFilter now q)))).findIdx?
          (fun e => decide (e.name = nm)) with
      | some i => i + 1
      | none => 0) = i + 1
    rw [hi]
  rw [hL, hR]

/-- C8 witness: with integer totals 300 and 200 the detail rank agrees
with the leaderboard rank. -/
theorem C8_detail_rank_matches_leaderboard_witness :
    ((employeesHandler clk quJan [visitAInt, visitBInt]).find?
      (fun e => decide (e.name = "A"))).map RankedEmp.rank =
      some (employeeDetailHandler clk quJan "A" [visitAInt, visitBInt]).rank := by
  refine C8_detail_rank_matches_leaderboard clk quJan [visitAInt, visitBInt] "A" ?_ ?_
  · intro v hv
    rcases List.mem_cons.1 hv with h | h
    · exact ⟨300, by rw [h]; norm_num [visitAInt, visitA]⟩
    · rcases List.mem_cons.1 h with h2 | h2
      · exact ⟨200, by rw [h2]; norm_num [visitBInt, visitB, visitA]⟩
      · exact absurd h2 (List.not_mem_nil v)
  · decide

end HairSalon
